import Mathlib

/-!
# Verification of the Diameter client scripts

A shallow embedding, in Lean 4, of the protocol-relevant logic of the
`diameter` repository: the stream framer `recv_one_diameter`, the
credit-control request builders (`split_in_out`, `build_mscc`, `build_ccr`),
the usage-simulation loop of `send_and_terminate_ccr_when_data_exhausted.py`,
the CER builder of `send_cer.py`, and a message/AVP codec modelled from the
design spec (the codec itself lives in the external `diameter` python
package).  Bytes are modelled as `Nat`, byte strings as `List Nat`, and
Python's signed integer arithmetic as `Int` where it matters.
-/

namespace DiameterRepo

/-! ## Stream framer: `recv_one_diameter`

The same function appears verbatim in
`my_task/send_and_receive_ccr_i_ccr_u_ccr_t.py` (lines 53-69),
`my_task/send_and_terminate_ccr_when_data_exhausted.py` (lines 61-78) and
`my_task/send_data_ccr.py`. -/

/-- A reliable byte stream as the receiving socket sees it: the list of byte
chunks the transport will deliver, in order.  Once the chunks are exhausted
the peer has closed the connection and every further read returns no bytes. -/
structure ByteStream where
  chunks : List (List Nat)

/-- Model of `sock.recv n`: return at most `n` bytes from the front of the
buffered data, leaving the unconsumed remainder of the current chunk at the
head of the stream; return the empty list when the stream is exhausted
(connection closed). -/
def recv (n : Nat) (s : ByteStream) : List Nat × ByteStream :=
  match s.chunks with
  | [] => ([], ⟨[]⟩)
  | c :: rest =>
    if c.length ≤ n then (c, ⟨rest⟩) else (c.take n, ⟨c.drop n :: rest⟩)

/-- The retry-on-partial-read loop of `recv_one_diameter`:
`while len(acc) < target: chunk = sock.recv(target - len(acc)); if not chunk:
raise ConnectionError; acc += chunk`.  `none` models the raised
`ConnectionError`.  The target is an `Int` because Python computes
`total_len - 20` in signed arithmetic and the loop guard compares against the
possibly negative result. -/
def recvLoop (target : Int) (acc : List Nat) (s : ByteStream) :
    Option (List Nat × ByteStream) :=
  if h : (acc.length : Int) < target then
    if hr : (recv (target - acc.length).toNat s).1 = [] then none
    else recvLoop target (acc ++ (recv (target - acc.length).toNat s).1)
           (recv (target - acc.length).toNat s).2
  else
    some (acc, s)
termination_by (target - acc.length).toNat
decreasing_by
  have h2 : (acc.length : Int) < target := h
  have hlen : 0 < (recv (target - acc.length).toNat s).1.length :=
    List.length_pos.mpr hr
  simp only [List.length_append]
  omega

/-- `int.from_bytes(header[1:4], "big")`: the 24-bit big-endian length field
in bytes 1..3 of the Diameter header. -/
def lengthField (header : List Nat) : Nat :=
  header.getD 1 0 * 65536 + header.getD 2 0 * 256 + header.getD 3 0

/-- `recv_one_diameter(sock)`: read exactly 20 header bytes, compute the total
length from header bytes 1..3, then read `total_len - 20` body bytes and
return `header + body`.  The returned `ByteStream` is the socket state left
behind; `none` models the raised `ConnectionError`. -/
def recv_one_diameter (s : ByteStream) : Option (List Nat × ByteStream) :=
  match recvLoop 20 [] s with
  | none => none
  | some (header, s1) =>
    match recvLoop ((lengthField header : Int) - 20) [] s1 with
    | none => none
    | some (body, s2) => some (header ++ body, s2)

/-- When the target is already met, the read loop returns the accumulator
untouched without reading from the stream. -/
theorem recvLoop_of_le (target : Int) (acc : List Nat) (s : ByteStream)
    (h : target ≤ (acc.length : Int)) :
    recvLoop target acc s = some (acc, s) := by
  rw [recvLoop.eq_def]
  simp [not_lt.mpr h]

/-- One unfolding of the read loop when the target is not yet met. -/
theorem recvLoop_step (target : Int) (acc : List Nat) (s : ByteStream)
    (h : (acc.length : Int) < target) :
    recvLoop target acc s =
      if (recv (target - acc.length).toNat s).1 = [] then none
      else recvLoop target (acc ++ (recv (target - acc.length).toNat s).1)
             (recv (target - acc.length).toNat s).2 := by
  rw [recvLoop.eq_def, dif_pos h, dite_eq_ite]

/-- Completeness of the read loop: when the stream delivers (in nonempty
chunks) at least the `target - acc.length` bytes still needed, the loop
returns the accumulator extended by exactly those bytes and leaves every
following byte unread in the stream. -/
theorem recvLoop_complete :
    ∀ (chunks : List (List Nat)) (acc need rest : List Nat) (target : Int),
    (∀ c ∈ chunks, c ≠ []) →
    chunks.flatten = need ++ rest →
    (need.length : Int) = target - acc.length →
    ∃ chunks2, recvLoop target acc ⟨chunks⟩ = some (acc ++ need, ⟨chunks2⟩) ∧
      chunks2.flatten = rest ∧ ∀ c ∈ chunks2, c ≠ [] := by
  intro chunks
  induction chunks with
  | nil =>
    intro acc need rest target hne hflat hlen
    obtain ⟨hneed, hrest⟩ := List.append_eq_nil.mp hflat.symm
    subst hneed; subst hrest
    refine ⟨[], ?_, rfl, by simp⟩
    rw [recvLoop_of_le target acc _ (by simp at hlen; omega)]
    simp
  | cons c cs ih =>
    intro acc need rest target hne hflat hlen
    have hc : c ≠ [] := hne c (List.mem_cons_self c cs)
    have hcpos : 0 < c.length := List.length_pos.mpr hc
    by_cases hT : target ≤ (acc.length : Int)
    · have hneed0 : need.length = 0 := by omega
      have hneed : need = [] := List.length_eq_zero.mp hneed0
      subst hneed
      refine ⟨c :: cs, ?_, by simpa using hflat, hne⟩
      rw [recvLoop_of_le target acc _ hT]
      simp
    · push_neg at hT
      have hflat2 : c ++ cs.flatten = need ++ rest := by simpa using hflat
      have hneedpos : 0 < need.length := by omega
      have hntn : (target - (acc.length : Int)).toNat = need.length := by omega
      by_cases hcl : c.length ≤ need.length
      · -- recv returns the whole chunk c
        have hrecv : recv (target - (acc.length : Int)).toNat ⟨c :: cs⟩ = (c, ⟨cs⟩) := by
          simp [recv, hntn, hcl]
        have htake : need.take c.length = c := by
          have h1 : (c ++ cs.flatten).take c.length = c := List.take_left c cs.flatten
          rw [hflat2, List.take_append_of_le_length hcl] at h1
          exact h1
        have hdrop : cs.flatten = need.drop c.length ++ rest := by
          have h1 : (c ++ cs.flatten).drop c.length = cs.flatten := List.drop_left c cs.flatten
          rw [hflat2, List.drop_append_of_le_length hcl] at h1
          exact h1.symm
        have hlen2 : ((need.drop c.length).length : Int) = target - ((acc ++ c).length : Int) := by
          simp [List.length_drop, List.length_append]
          omega
        obtain ⟨chunks2, h1, h2, h3⟩ :=
          ih (acc ++ c) (need.drop c.length) rest target
            (fun d hd => hne d (List.mem_cons_of_mem c hd)) hdrop hlen2
        refine ⟨chunks2, ?_, h2, h3⟩
        rw [recvLoop_step target acc _ hT, hrecv]
        simp only [hc, if_false]
        rw [h1]
        have hjoin : c ++ List.drop c.length need = need := by
          have h4 := List.take_append_drop c.length need
          rw [htake] at h4
          exact h4
        rw [List.append_assoc, hjoin]
      · -- recv returns only the first `need.length` bytes of c
        push_neg at hcl
        have hrecv : recv (target - (acc.length : Int)).toNat ⟨c :: cs⟩ =
            (c.take need.length, ⟨c.drop need.length :: cs⟩) := by
          simp [recv, hntn, not_le.mpr hcl]
        have htakeneed : c.take need.length = need := by
          have h1 : (c ++ cs.flatten).take need.length = c.take need.length :=
            List.take_append_of_le_length (le_of_lt hcl)
          rw [hflat2, List.take_left] at h1
          exact h1.symm
        have hdropflat : c.drop need.length ++ cs.flatten = rest := by
          have h1 : (c ++ cs.flatten).drop need.length = c.drop need.length ++ cs.flatten :=
            List.drop_append_of_le_length (le_of_lt hcl)
          rw [hflat2, List.drop_left] at h1
          exact h1.symm
        have hdne : c.drop need.length ≠ [] := by
          apply List.ne_nil_of_length_pos
          rw [List.length_drop]
          omega
        refine ⟨c.drop need.length :: cs, ?_, by simpa using hdropflat,
          fun d hd => ?_⟩
        · rw [recvLoop_step target acc _ hT, hrecv]
          have htne : c.take need.length ≠ [] := by
            rw [htakeneed]; exact List.length_pos.mp hneedpos
          simp only [htne, if_false]
          rw [htakeneed, recvLoop_of_le]
          simp; omega
        · rcases List.mem_cons.mp hd with h | h
          · subst h; exact hdne
          · exact hne d (List.mem_cons_of_mem c h)

/-- The read loop raises `ConnectionError` exactly when the stream (delivering
nonempty chunks) holds fewer bytes than the loop still needs. -/
theorem recvLoop_eq_none_iff :
    ∀ (chunks : List (List Nat)) (acc : List Nat) (target : Int),
    (∀ c ∈ chunks, c ≠ []) →
    (recvLoop target acc ⟨chunks⟩ = none ↔
      (acc.length + chunks.flatten.length : Int) < target) := by
  intro chunks
  induction chunks with
  | nil =>
    intro acc target hne
    by_cases hT : target ≤ (acc.length : Int)
    · rw [recvLoop_of_le target acc _ hT]
      simp; omega
    · push_neg at hT
      rw [recvLoop_step target acc _ hT]
      simp only [recv, reduceCtorEq, if_pos, List.flatten_nil, List.length_nil]
      simp
      omega
  | cons c cs ih =>
    intro acc target hne
    have hc : c ≠ [] := hne c (List.mem_cons_self c cs)
    have hcpos : 0 < c.length := List.length_pos.mpr hc
    by_cases hT : target ≤ (acc.length : Int)
    · rw [recvLoop_of_le target acc _ hT]
      refine iff_of_false (by simp) ?_
      intro hcontra
      have hnn : (0 : Int) ≤ ((c :: cs).flatten.length : Int) := Int.natCast_nonneg _
      omega
    · push_neg at hT
      rw [recvLoop_step target acc _ hT]
      set n := (target - (acc.length : Int)).toNat with hn
      have hnpos : 0 < n := by omega
      by_cases hcl : c.length ≤ n
      · have hrecv : recv n ⟨c :: cs⟩ = (c, ⟨cs⟩) := by simp [recv, hcl]
        rw [hrecv]
        simp only [hc, if_false]
        rw [ih (acc ++ c) target (fun d hd => hne d (List.mem_cons_of_mem c hd))]
        simp only [List.length_append, List.flatten_cons, Nat.cast_add]
        constructor <;> intro <;> omega
      · push_neg at hcl
        have hrecv : recv n ⟨c :: cs⟩ = (c.take n, ⟨c.drop n :: cs⟩) := by
          simp [recv, not_le.mpr hcl]
        rw [hrecv]
        have htne : c.take n ≠ [] := by
          apply List.ne_nil_of_length_pos
          rw [List.length_take]
          omega
        simp only [htne, if_false]
        rw [recvLoop_of_le]
        · simp only [List.flatten_cons, List.length_append, Nat.cast_add]
          constructor
          · intro hfalse
            exact absurd hfalse (by simp)
          · intro hcontra
            omega
        · simp only [List.length_append, List.length_take]
          push_cast
          omega

/-- C1: For every Diameter message of encoded length `L ≥ 20` whose header
length field equals `L`, and every splitting of the stream into nonempty
chunks that concatenate to the message followed by any further bytes,
`recv_one_diameter` returns exactly the `L` message bytes: 20 header bytes
are accumulated first, the total length is the big-endian integer in header
bytes 1..3, then exactly `L - 20` body bytes are accumulated, never reading
past the message boundary (the following bytes stay in the stream) and never
returning fewer bytes. -/
theorem recv_one_diameter_reconstructs (s : ByteStream) (msg rest : List Nat)
    (hne : ∀ c ∈ s.chunks, c ≠ [])
    (hflat : s.chunks.flatten = msg ++ rest)
    (hlen : 20 ≤ msg.length)
    (hfield : lengthField (msg.take 20) = msg.length) :
    ∃ s2, recv_one_diameter s = some (msg, s2) ∧
      s2.chunks.flatten = rest ∧ ∀ c ∈ s2.chunks, c ≠ [] := by
  obtain ⟨chunks1, h1, h2, h3⟩ :=
    recvLoop_complete s.chunks [] (msg.take 20) (msg.drop 20 ++ rest) 20 hne
      (by rw [hflat, ← List.append_assoc, List.take_append_drop])
      (by simp only [List.length_take, List.length_nil]; push_cast; omega)
  have h1a : recvLoop 20 [] s = some (msg.take 20, ⟨chunks1⟩) := by
    simpa using h1
  obtain ⟨chunks2, h4, h5, h6⟩ :=
    recvLoop_complete chunks1 [] (msg.drop 20) rest
      ((lengthField (msg.take 20) : Int) - 20) h3 h2
      (by simp only [List.length_drop, List.length_nil, hfield]; push_cast; omega)
  have h4a : recvLoop ((lengthField (msg.take 20) : Int) - 20) [] (⟨chunks1⟩ : ByteStream) =
      some (msg.drop 20, ⟨chunks2⟩) := by
    simpa using h4
  refine ⟨⟨chunks2⟩, ?_, h5, h6⟩
  unfold recv_one_diameter
  rw [h1a]
  simp only [h4a, List.take_append_drop]

/-- Witness for C1 at a concrete 24-byte message (header declaring length 24
followed by a 4-byte body) delivered in five chunks, one of which straddles
the message boundary; two extra bytes follow on the stream. -/
theorem recv_one_diameter_reconstructs_witness :
    (∀ c ∈ (⟨[[1], [0, 0], [24, 0, 0, 0, 0], [0, 0, 0, 0, 0, 0, 0, 0, 0, 0, 0, 0],
        [5, 6], [7, 8, 9, 9]]⟩ : ByteStream).chunks, c ≠ []) ∧
    (⟨[[1], [0, 0], [24, 0, 0, 0, 0], [0, 0, 0, 0, 0, 0, 0, 0, 0, 0, 0, 0],
        [5, 6], [7, 8, 9, 9]]⟩ : ByteStream).chunks.flatten =
      [1, 0, 0, 24, 0, 0, 0, 0, 0, 0, 0, 0, 0, 0, 0, 0, 0, 0, 0, 0, 5, 6, 7, 8] ++ [9, 9] ∧
    ∃ s2, recv_one_diameter
        ⟨[[1], [0, 0], [24, 0, 0, 0, 0], [0, 0, 0, 0, 0, 0, 0, 0, 0, 0, 0, 0],
          [5, 6], [7, 8, 9, 9]]⟩ =
        some ([1, 0, 0, 24, 0, 0, 0, 0, 0, 0, 0, 0, 0, 0, 0, 0, 0, 0, 0, 0, 5, 6, 7, 8], s2) ∧
      s2.chunks.flatten = [9, 9] ∧ ∀ c ∈ s2.chunks, c ≠ [] :=
  ⟨by decide, by decide,
    recv_one_diameter_reconstructs _ _ _ (by decide) (by decide) (by decide) (by decide)⟩

/-- C6: `recv_one_diameter` fails with the connection-closed error exactly
when the stream ends before the 20 header bytes are complete or before the
declared body length is fully available; on that error no partial message is
returned (the result is `none`, carrying no bytes). -/
theorem recv_one_diameter_none_iff (s : ByteStream)
    (hne : ∀ c ∈ s.chunks, c ≠ []) :
    (recv_one_diameter s = none ↔
      s.chunks.flatten.length < 20 ∨
      (s.chunks.flatten.length : Int) <
        (lengthField (s.chunks.flatten.take 20) : Int)) := by
  by_cases h20 : s.chunks.flatten.length < 20
  · have h1 : recvLoop 20 [] s = none := by
      have := (recvLoop_eq_none_iff s.chunks [] 20 hne).mpr
        (by simp only [List.length_nil]; omega)
      simpa using this
    unfold recv_one_diameter
    rw [h1]
    exact iff_of_true rfl (Or.inl h20)
  · push_neg at h20
    obtain ⟨chunks1, h1, h2, h3⟩ :=
      recvLoop_complete s.chunks [] (s.chunks.flatten.take 20)
        (s.chunks.flatten.drop 20) 20 hne
        (List.take_append_drop 20 s.chunks.flatten).symm
        (by simp only [List.length_take, List.length_nil]; push_cast; omega)
    have h1a : recvLoop 20 [] s = some (s.chunks.flatten.take 20, ⟨chunks1⟩) := by
      simpa using h1
    have hlen1 : chunks1.flatten.length = s.chunks.flatten.length - 20 := by
      rw [h2, List.length_drop]
    by_cases hB : (s.chunks.flatten.length : Int) <
        (lengthField (s.chunks.flatten.take 20) : Int)
    · have h4 : recvLoop ((lengthField (s.chunks.flatten.take 20) : Int) - 20) []
          (⟨chunks1⟩ : ByteStream) = none := by
        rw [recvLoop_eq_none_iff chunks1 [] _ h3]
        simp only [List.length_nil, hlen1]
        omega
      unfold recv_one_diameter
      rw [h1a]
      simp only [h4]
      exact iff_of_true trivial (Or.inr hB)
    · have h4 : recvLoop ((lengthField (s.chunks.flatten.take 20) : Int) - 20) []
          (⟨chunks1⟩ : ByteStream) ≠ none := by
        rw [ne_eq, recvLoop_eq_none_iff chunks1 [] _ h3]
        simp only [List.length_nil, hlen1]
        omega
      obtain ⟨⟨body, s2⟩, h5⟩ := Option.ne_none_iff_exists.mp h4
      unfold recv_one_diameter
      rw [h1a]
      simp only [← h5]
      refine iff_of_false (by simp) ?_
      rintro (h | h)
      · omega
      · exact hB h

/-- Witness for C6 at a concrete one-byte stream, whose read fails because
the connection closes inside the header. -/
theorem recv_one_diameter_none_iff_witness :
    (∀ c ∈ (⟨[[1]]⟩ : ByteStream).chunks, c ≠ []) ∧
    (recv_one_diameter ⟨[[1]]⟩ = none ↔
      (⟨[[1]]⟩ : ByteStream).chunks.flatten.length < 20 ∨
      ((⟨[[1]]⟩ : ByteStream).chunks.flatten.length : Int) <
        (lengthField ((⟨[[1]]⟩ : ByteStream).chunks.flatten.take 20) : Int)) :=
  ⟨by decide, recv_one_diameter_none_iff _ (by decide)⟩

/-- C10: If the 20-byte header declares a length field of at most 20, the
body loop reads nothing: `recv_one_diameter` succeeds with exactly the 20
header bytes, no validation rejects the malformed length, and every byte
after the header stays unread in the stream. -/
theorem recv_one_diameter_short_length (s : ByteStream)
    (hne : ∀ c ∈ s.chunks, c ≠ [])
    (h20 : 20 ≤ s.chunks.flatten.length)
    (hfield : lengthField (s.chunks.flatten.take 20) ≤ 20) :
    ∃ s2, recv_one_diameter s = some (s.chunks.flatten.take 20, s2) ∧
      s2.chunks.flatten = s.chunks.flatten.drop 20 := by
  obtain ⟨chunks1, h1, h2, h3⟩ :=
    recvLoop_complete s.chunks [] (s.chunks.flatten.take 20)
      (s.chunks.flatten.drop 20) 20 hne
      (List.take_append_drop 20 s.chunks.flatten).symm
      (by simp only [List.length_take, List.length_nil]; push_cast; omega)
  have h1a : recvLoop 20 [] s = some (s.chunks.flatten.take 20, ⟨chunks1⟩) := by
    simpa using h1
  have h4 : recvLoop ((lengthField (s.chunks.flatten.take 20) : Int) - 20) []
      (⟨chunks1⟩ : ByteStream) = some ([], ⟨chunks1⟩) :=
    recvLoop_of_le _ _ _ (by simp only [List.length_nil]; omega)
  refine ⟨⟨chunks1⟩, ?_, h2⟩
  unfold recv_one_diameter
  rw [h1a]
  simp only [h4, List.append_nil]

/-- Witness for C10 at a concrete stream whose header underclaims the length
as 10: the call returns the 20 header bytes and leaves the rest unread. -/
theorem recv_one_diameter_short_length_witness :
    (∀ c ∈ (⟨[[1, 0, 0, 10, 0, 0, 0, 0, 0, 0], [0, 0, 0, 0, 0, 0, 0, 0, 0, 0, 7, 7]]⟩ :
        ByteStream).chunks, c ≠ []) ∧
    20 ≤ (⟨[[1, 0, 0, 10, 0, 0, 0, 0, 0, 0], [0, 0, 0, 0, 0, 0, 0, 0, 0, 0, 7, 7]]⟩ :
        ByteStream).chunks.flatten.length ∧
    lengthField ((⟨[[1, 0, 0, 10, 0, 0, 0, 0, 0, 0], [0, 0, 0, 0, 0, 0, 0, 0, 0, 0, 7, 7]]⟩ :
        ByteStream).chunks.flatten.take 20) ≤ 20 ∧
    ∃ s2, recv_one_diameter
        ⟨[[1, 0, 0, 10, 0, 0, 0, 0, 0, 0], [0, 0, 0, 0, 0, 0, 0, 0, 0, 0, 7, 7]]⟩ =
        some ((⟨[[1, 0, 0, 10, 0, 0, 0, 0, 0, 0], [0, 0, 0, 0, 0, 0, 0, 0, 0, 0, 7, 7]]⟩ :
          ByteStream).chunks.flatten.take 20, s2) ∧
      s2.chunks.flatten =
        (⟨[[1, 0, 0, 10, 0, 0, 0, 0, 0, 0], [0, 0, 0, 0, 0, 0, 0, 0, 0, 0, 7, 7]]⟩ :
          ByteStream).chunks.flatten.drop 20 :=
  ⟨by decide, by decide, by decide,
    recv_one_diameter_short_length _ (by decide) (by decide) (by decide)⟩

/-! ## AVP value trees and shared protocol constants -/

/-- Attribute-Value-Pair tree as the scripts build it through `Avp.new`: a
code, an optional vendor id, and either a numeric value, a raw byte-string
value, or a list of child AVPs (grouped).  String- and bytes-valued AVPs of
the scripts are modelled as raw byte lists (their UTF-8/ASCII bytes). -/
inductive Avp where
  | num (code : Nat) (vendorId : Option Nat) (value : Nat)
  | raw (code : Nat) (vendorId : Option Nat) (value : List Nat)
  | grouped (code : Nat) (vendorId : Option Nat) (children : List Avp)

/-- The AVP code. -/
def Avp.code : Avp → Nat
  | .num c _ _ => c
  | .raw c _ _ => c
  | .grouped c _ _ => c

/-- The optional vendor id. -/
def Avp.vendorId : Avp → Option Nat
  | .num _ v _ => v
  | .raw _ v _ => v
  | .grouped _ v _ => v

/-- Children of a grouped AVP (empty for scalar AVPs). -/
def Avp.children : Avp → List Avp
  | .grouped _ _ cs => cs
  | _ => []

/-- The numeric payload, when the AVP is numeric. -/
def Avp.natValue : Avp → Option Nat
  | .num _ _ v => some v
  | _ => none

/-- First AVP with the given code, as the attribute accessors of the
`diameter` package locate named AVPs inside a sequence. -/
def findAvp (code : Nat) (avps : List Avp) : Option Avp :=
  avps.find? (fun a => a.code == code)

/-- `constants.VENDOR_TGPP`. -/
def VENDOR_TGPP : Nat := 10415

/-- `constants.AVP_TGPP_3GPP_REPORTING_REASON`. -/
def AVP_TGPP_3GPP_REPORTING_REASON : Nat := 872

/-- `constants.E_CC_REQUEST_TYPE_INITIAL_REQUEST`. -/
def E_CC_REQUEST_TYPE_INITIAL_REQUEST : Nat := 1

/-- `constants.E_CC_REQUEST_TYPE_UPDATE_REQUEST`. -/
def E_CC_REQUEST_TYPE_UPDATE_REQUEST : Nat := 2

/-- `constants.E_CC_REQUEST_TYPE_TERMINATION_REQUEST`. -/
def E_CC_REQUEST_TYPE_TERMINATION_REQUEST : Nat := 3

namespace GyExhaust

/-! ## `my_task/send_and_terminate_ccr_when_data_exhausted.py`

The quota constants, the deterministic input/output split, the manual MSCC
builder, the CCR builder and the usage-simulation loop of `main`. -/

/-- Server default quota, 500 KiB (line 50). -/
def DEFAULT_OCTETS : Nat := 512000

/-- Quota validity, 30 minutes (line 51). -/
def VALIDITY_SECONDS : Nat := 1800

/-- Simulated traffic per loop iteration (line 55). -/
def SIM_STEP_BYTES : Nat := 50 * 1024

/-- Rating group (line 41). -/
def RATING_GROUP : Nat := 8000

/-- `split_in_out(total)`: deterministic split of the used total into
input/output counters, `inp = total // 4`, `out = total - inp`. -/
def split_in_out (total : Nat) : Nat × Nat :=
  (total / 4, total - total / 4)

/-- `build_mscc(requested_octets, used_total, reporting_reason)`: the
manually assembled Multiple-Services-Credit-Control(456) grouped AVP with
RSU(437)/CC-Total-Octets(421), USU(446)/CC-Total(421)+CC-Input(412)+
CC-Output(414), Rating-Group(432) and the vendor-specific
3GPP-Reporting-Reason(872). -/
def build_mscc (requested_octets used_total reporting_reason : Nat) : Avp :=
  Avp.grouped 456 none
    [Avp.grouped 437 none [Avp.num 421 none requested_octets],
     Avp.grouped 446 none
       [Avp.num 421 none used_total,
        Avp.num 412 none (split_in_out used_total).1,
        Avp.num 414 none (split_in_out used_total).2],
     Avp.num 432 none RATING_GROUP,
     Avp.num AVP_TGPP_3GPP_REPORTING_REASON (some VENDOR_TGPP) reporting_reason]

/-- A Credit-Control-Request as `build_ccr` populates it: request type,
request number and the MSCC.  The constant identity AVPs appended by
`add_common_ccr_avps` (Session-Id, Origin-Host, Subscription-Ids,
Service-Information, ...) carry fixed configuration values no claim refers
to and are not tracked. -/
structure CCR where
  cc_request_type : Nat
  cc_request_number : Nat
  mscc : Avp

/-- `build_ccr(req_type, req_no, used_total, reporting_reason)`: sets the
request type and number and appends `build_mscc(DEFAULT_OCTETS, used_total,
reporting_reason)`. -/
def build_ccr (req_type req_no used_total reporting_reason : Nat) : CCR :=
  ⟨req_type, req_no, build_mscc DEFAULT_OCTETS used_total reporting_reason⟩

/-- The Reporting-Reason value carried inside the MSCC of a CCR. -/
def reportingReason (c : CCR) : Option Nat :=
  (findAvp AVP_TGPP_3GPP_REPORTING_REASON c.mscc.children).bind Avp.natValue

/-- The simulate-usage loop of `main` (lines 218-229): each iteration reads
the elapsed wall-clock seconds (modelled as the externally supplied sequence
`clock`, indexed by iteration), breaks when `used_total >= DEFAULT_OCTETS`
(result flag `true`: quota exhausted), else breaks when
`elapsed >= VALIDITY_SECONDS` (result flag `false`: validity timer), else
advances `used_total = min(DEFAULT_OCTETS, used_total + SIM_STEP_BYTES)`.
Returns the final `used_total` and the break cause. -/
def simLoop (clock : Nat → Nat) (i used_total : Nat) : Nat × Bool :=
  if DEFAULT_OCTETS ≤ used_total then (used_total, true)
  else if VALIDITY_SECONDS ≤ clock i then (used_total, false)
  else simLoop clock (i + 1) (min DEFAULT_OCTETS (used_total + SIM_STEP_BYTES))
termination_by DEFAULT_OCTETS - used_total
decreasing_by
  simp only [SIM_STEP_BYTES]
  omega

/-- The CCR-I `main` sends (line 213): request number 0, no usage yet,
`reporting_reason=2` (FINAL). -/
def ccr_i : CCR := build_ccr E_CC_REQUEST_TYPE_INITIAL_REQUEST 0 0 2

/-- The CCR-U `main` sends after the usage loop (line 232): request number
1, the accumulated usage, and `reporting_reason=3` (QUOTA_EXHAUSTED),
whatever ended the loop. -/
def ccr_u (clock : Nat → Nat) : CCR :=
  build_ccr E_CC_REQUEST_TYPE_UPDATE_REQUEST 1 (simLoop clock 0 0).1 3

/-- The CCR-T `main` sends (line 236): request number 2,
`reporting_reason=2` (FINAL). -/
def ccr_t (clock : Nat → Nat) : CCR :=
  build_ccr E_CC_REQUEST_TYPE_TERMINATION_REQUEST 2 (simLoop clock 0 0).1 2

/-- The CCRs `main` sends over the session, in order. -/
def main_ccrs (clock : Nat → Nat) : List CCR := [ccr_i, ccr_u clock, ccr_t clock]

/-- Bounds along the usage loop: the final `used_total` never drops below the
initial value and never exceeds `max initial DEFAULT_OCTETS`.  Proved by
induction on a fuel bound for the quota remainder. -/
theorem simLoop_bounds :
    ∀ (fuel : Nat) (clock : Nat → Nat) (i used_total : Nat),
    DEFAULT_OCTETS - used_total ≤ fuel →
    used_total ≤ (simLoop clock i used_total).1 ∧
      (simLoop clock i used_total).1 ≤ max used_total DEFAULT_OCTETS := by
  intro fuel
  induction fuel with
  | zero =>
    intro clock i used_total hf
    have hex : DEFAULT_OCTETS ≤ used_total := by omega
    rw [simLoop.eq_def, if_pos hex]
    exact ⟨le_refl _, le_max_left _ _⟩
  | succ n ih =>
    intro clock i used_total hf
    rw [simLoop.eq_def]
    by_cases h1 : DEFAULT_OCTETS ≤ used_total
    · rw [if_pos h1]
      exact ⟨le_refl _, le_max_left _ _⟩
    · rw [if_neg h1]
      by_cases h2 : VALIDITY_SECONDS ≤ clock i
      · rw [if_pos h2]
        exact ⟨le_refl _, le_max_left _ _⟩
      · rw [if_neg h2]
        have hstep : 0 < SIM_STEP_BYTES := by norm_num [SIM_STEP_BYTES]
        have hle : used_total ≤ min DEFAULT_OCTETS (used_total + SIM_STEP_BYTES) := by
          omega
        have hfu : DEFAULT_OCTETS - min DEFAULT_OCTETS (used_total + SIM_STEP_BYTES) ≤ n := by
          omega
        obtain ⟨ha, hb⟩ := ih clock (i + 1) _ hfu
        refine ⟨le_trans hle ha, le_trans hb ?_⟩
        have hmax : max (min DEFAULT_OCTETS (used_total + SIM_STEP_BYTES)) DEFAULT_OCTETS =
            DEFAULT_OCTETS := by omega
        rw [hmax]
        exact le_max_right _ _

end GyExhaust

namespace GySequence

/-! ## `my_task/send_and_receive_ccr_i_ccr_u_ccr_t.py`

The request builder and `main` of the CCR-I / CCR-U / CCR-T sequence
script. -/

/-- Rating group (line 31). -/
def RATING_GROUP : Nat := 8000

/-- Quota requested on I/U (line 34). -/
def REQ_TOTAL_OCTETS : Nat := 10485

/-- Usage reported on the CCR-I (line 37). -/
def USED_I_TOTAL : Nat := 10485

/-- Usage reported on the CCR-U (line 38). -/
def USED_U_TOTAL : Nat := 10485

/-- Usage reported on the CCR-T (line 39). -/
def USED_T_TOTAL : Nat := 512000

/-- A Credit-Control-Request as this script assembles it: the request type
and number it sets, and the MSCC arguments it passes to the library call
`add_multiple_services_credit_control` (the MSCC byte assembly itself
happens inside the external `diameter` package).  As with `GyExhaust.CCR`,
the constant identity AVPs of `add_common_ccr_avps` are not tracked. -/
structure CCR where
  cc_request_type : Nat
  cc_request_number : Nat
  rating_group : Nat
  requested_total_octets : Nat
  used_total_octets : Nat
  mscc_extra_avps : List Avp

/-- `build_ccr(request_type, request_number, used_total_octets)`: the
reporting reason is `3 if request_type == UPDATE else 2`, attached to the
MSCC as an extra vendor AVP. -/
def build_ccr (request_type request_number used_total_octets : Nat) : CCR :=
  { cc_request_type := request_type
    cc_request_number := request_number
    rating_group := RATING_GROUP
    requested_total_octets := REQ_TOTAL_OCTETS
    used_total_octets := used_total_octets
    mscc_extra_avps :=
      [Avp.num AVP_TGPP_3GPP_REPORTING_REASON (some VENDOR_TGPP)
        (if request_type == E_CC_REQUEST_TYPE_UPDATE_REQUEST then 3 else 2)] }

/-- The three CCRs `main` sends, in order (lines 183-195). -/
def main_ccrs : List CCR :=
  [build_ccr E_CC_REQUEST_TYPE_INITIAL_REQUEST 0 USED_I_TOTAL,
   build_ccr E_CC_REQUEST_TYPE_UPDATE_REQUEST 1 USED_U_TOTAL,
   build_ccr E_CC_REQUEST_TYPE_TERMINATION_REQUEST 2 USED_T_TOTAL]

end GySequence

/-! ## Session claims -/

/-- C2 (amended): the CCR-U built after the usage loop always carries
reporting_reason = QUOTA_EXHAUSTED (3), whichever condition ended the loop;
and whenever the quota is exhausted — in particular when the validity timer
has expired as well — the loop break is attributed to exhaustion, because
that check comes first. -/
theorem ccr_u_reports_quota_exhausted (clock : Nat → Nat) (i used_total : Nat)
    (hex : GyExhaust.DEFAULT_OCTETS ≤ used_total) :
    GyExhaust.reportingReason (GyExhaust.ccr_u clock) = some 3 ∧
    GyExhaust.simLoop clock i used_total = (used_total, true) := by
  constructor
  · rfl
  · rw [GyExhaust.simLoop.eq_def, if_pos hex]

/-- Witness for the amended C2 at a clock that is already past the validity
deadline while the quota is exhausted: the break is still attributed to
exhaustion. -/
theorem ccr_u_reports_quota_exhausted_witness :
    GyExhaust.DEFAULT_OCTETS ≤ GyExhaust.DEFAULT_OCTETS ∧
    (GyExhaust.reportingReason (GyExhaust.ccr_u (fun _ => 1800)) = some 3 ∧
     GyExhaust.simLoop (fun _ => 1800) 0 GyExhaust.DEFAULT_OCTETS =
       (GyExhaust.DEFAULT_OCTETS, true)) :=
  ⟨le_refl _,
    ccr_u_reports_quota_exhausted (fun _ => 1800) 0 GyExhaust.DEFAULT_OCTETS (le_refl _)⟩

/-- C2 counterexample: with the wall clock already at the validity deadline
before the first iteration, the loop exits on timer expiry (break flag
`false`) with the quota not exhausted, yet the CCR-U then built still
carries reporting_reason = 3 (QUOTA_EXHAUSTED), not a timer-expiry
reason — `main` passes `reporting_reason=3` unconditionally. -/
theorem ccr_u_timer_expiry_counterexample :
    (GyExhaust.simLoop (fun _ => 1800) 0 0).2 = false ∧
    (GyExhaust.simLoop (fun _ => 1800) 0 0).1 < GyExhaust.DEFAULT_OCTETS ∧
    GyExhaust.reportingReason (GyExhaust.ccr_u (fun _ => 1800)) = some 3 := by
  have h : GyExhaust.simLoop (fun _ => 1800) 0 0 = (0, false) := by
    rw [GyExhaust.simLoop.eq_def]
    norm_num [GyExhaust.DEFAULT_OCTETS, GyExhaust.VALIDITY_SECONDS]
  refine ⟨by rw [h], by rw [h]; norm_num [GyExhaust.DEFAULT_OCTETS], rfl⟩

/-- C3 counterexample: a Reporting-Reason AVP is attached to the CCR-I's
MSCC — `main` builds the initial request with `reporting_reason=2`
(FINAL), so the AVP is present, not unset/absent. -/
theorem ccr_i_reporting_reason_present :
    findAvp AVP_TGPP_3GPP_REPORTING_REASON GyExhaust.ccr_i.mscc.children =
      some (Avp.num AVP_TGPP_3GPP_REPORTING_REASON (some VENDOR_TGPP) 2) := by
  rfl

/-- C3 (amended): the CCR-I is built with request_number = 0, but with a
Reporting-Reason AVP carrying FINAL (2) attached to its MSCC — in both
scripts: `send_and_terminate_ccr_when_data_exhausted.py` passes
`reporting_reason=2` explicitly, and in
`send_and_receive_ccr_i_ccr_u_ccr_t.py` the selection
`3 if request_type == UPDATE else 2` yields 2 on the initial request. -/
theorem ccr_i_request_number_zero_reason_final :
    GyExhaust.ccr_i.cc_request_number = 0 ∧
    GyExhaust.reportingReason GyExhaust.ccr_i = some 2 ∧
    (GySequence.build_ccr E_CC_REQUEST_TYPE_INITIAL_REQUEST 0
        GySequence.USED_I_TOTAL).cc_request_number = 0 ∧
    (GySequence.build_ccr E_CC_REQUEST_TYPE_INITIAL_REQUEST 0
        GySequence.USED_I_TOTAL).mscc_extra_avps =
      [Avp.num AVP_TGPP_3GPP_REPORTING_REASON (some VENDOR_TGPP) 2] :=
  ⟨rfl, rfl, rfl, rfl⟩

/-- C5: the request numbers on the wire for the CCRs of one session are
exactly 0, 1, 2 in send order (CCR-I, CCR-U, CCR-T) in both scripts:
starting at 0 and incrementing by exactly 1 per CCR. -/
theorem main_request_number_sequence (clock : Nat → Nat) :
    (GyExhaust.main_ccrs clock).map GyExhaust.CCR.cc_request_number = List.range 3 ∧
    GySequence.main_ccrs.map GySequence.CCR.cc_request_number = List.range 3 :=
  ⟨rfl, rfl⟩

/-- C8: for every total, the input/output split is the deterministic pair
`(total // 4, total - total // 4)` summing back to the total, and the
Used-Service-Unit(446) group inside the MSCC built by `build_mscc` carries
CC-Total-Octets(421) = total, CC-Input-Octets(412) = input and
CC-Output-Octets(414) = output. -/
theorem split_in_out_build_mscc (total requested reason : Nat) :
    (GyExhaust.split_in_out total).1 + (GyExhaust.split_in_out total).2 = total ∧
    ∃ usu, findAvp 446 (GyExhaust.build_mscc requested total reason).children = some usu ∧
      (findAvp 421 usu.children).bind Avp.natValue = some total ∧
      (findAvp 412 usu.children).bind Avp.natValue = some (GyExhaust.split_in_out total).1 ∧
      (findAvp 414 usu.children).bind Avp.natValue = some (GyExhaust.split_in_out total).2 := by
  refine ⟨?_,
    Avp.grouped 446 none
      [Avp.num 421 none total, Avp.num 412 none (total / 4),
       Avp.num 414 none (total - total / 4)], rfl, rfl, rfl, rfl⟩
  have hd : total / 4 ≤ total := Nat.div_le_self total 4
  simp only [GyExhaust.split_in_out]
  omega

/-- C9: the cumulative `used_total` of the usage loop is non-decreasing:
from any starting value it never drops (each update only assigns
`min(DEFAULT_OCTETS, previous + SIM_STEP_BYTES)`), it never exceeds
`max start DEFAULT_OCTETS`, and started from 0 at session creation — as
`main` does — it never exceeds the default granted quota. -/
theorem simLoop_used_total_monotone (clock : Nat → Nat) (i used_total : Nat) :
    used_total ≤ (GyExhaust.simLoop clock i used_total).1 ∧
    (GyExhaust.simLoop clock i used_total).1 ≤
      max used_total GyExhaust.DEFAULT_OCTETS ∧
    (GyExhaust.simLoop clock 0 0).1 ≤ GyExhaust.DEFAULT_OCTETS := by
  obtain ⟨h1, h2⟩ :=
    GyExhaust.simLoop_bounds (GyExhaust.DEFAULT_OCTETS - used_total) clock i used_total
      (le_refl _)
  refine ⟨h1, h2, ?_⟩
  have h3 := (GyExhaust.simLoop_bounds GyExhaust.DEFAULT_OCTETS clock 0 0 (by omega)).2
  simpa using h3

/-! ## Message/AVP codec, modelled from the spec

The encoder/decoder below is *modelled from the spec* (sections 4.1, 4.2
and 6): the codec itself lives in the external `diameter` python package,
which is not part of the repository sources — only its callers
(`my_task/*.py`) and its tests (`tests/test_capabilities_exchange.py`)
are.  -/

/-- Modelled from the spec: 32-bit big-endian encoding of numeric fields
(§4.1, "fixed-width big-endian integers for numeric AVPs"). -/
def u32be (n : Nat) : List Nat :=
  [n / 16777216 % 256, n / 65536 % 256, n / 256 % 256, n % 256]

/-- Modelled from the spec: 24-bit big-endian field (AVP length, message
length and command code are `u24`). -/
def u24be (n : Nat) : List Nat :=
  [n / 65536 % 256, n / 256 % 256, n % 256]

/-- Zero padding needed to reach a 4-byte boundary (§4.1: value bytes are
padded to a 4-byte boundary, the padding excluded from the length field). -/
def pad4 (len : Nat) : Nat := (4 - len % 4) % 4

/-- Modelled from the spec, §4.1/§3: the AVP header is 8 bytes, or 12 when
a vendor id is present. -/
def avpHeaderLen : Option Nat → Nat
  | some _ => 12
  | none => 8

/-- Modelled from the spec, §4.1: the flags byte; bit0 is the
vendor-specific bit, set exactly when a vendor id is present (the §3
invariant).  The mandatory/protected bits are left 0: no claim depends on
them. -/
def avpFlags : Option Nat → Nat
  | some _ => 1
  | none => 0

/-- Modelled from the spec, §4.1: one AVP with the given raw value bytes —
4-byte code, flags byte, 3-byte length (header + value, unpadded), the
4-byte vendor id when vendor-specific, the value, zero padding to a 4-byte
boundary. -/
def encodeRawAvp (code : Nat) (vid : Option Nat) (value : List Nat) : List Nat :=
  u32be code ++ [avpFlags vid] ++ u24be (avpHeaderLen vid + value.length) ++
    (vid.map u32be).getD [] ++ value ++ List.replicate (pad4 value.length) 0

mutual

/-- Modelled from the spec, §4.1: AVP encoding; numeric values as 32-bit
big-endian, raw values as given, grouped values as the concatenation of the
children's (padded) encodings. -/
def encodeAvp : Avp → List Nat
  | .num code vid v => encodeRawAvp code vid (u32be v)
  | .raw code vid bs => encodeRawAvp code vid bs
  | .grouped code vid cs => encodeRawAvp code vid (encodeAvpList cs)

/-- Concatenated encodings of a list of AVPs, in order. -/
def encodeAvpList : List Avp → List Nat
  | [] => []
  | a :: rest => encodeAvp a ++ encodeAvpList rest

end

/-- Modelled from the spec, §3: a Diameter message — the header fields and
the ordered AVP sequence.  The header `length` field is not stored: it is
computed at encode time as the exact encoded size, which is what
`as_bytes()` records into `header.length`. -/
structure Message where
  version : Nat
  flags : Nat
  command_code : Nat
  application_id : Nat
  hop_by_hop_id : Nat
  end_to_end_id : Nat
  avps : List Avp

/-- The encoded AVP section of a message. -/
def Message.body (m : Message) : List Nat := encodeAvpList m.avps

/-- The header `length` field: the exact encoded byte size of header plus
AVPs (§3: "`length` equals the exact encoded byte size of header+AVPs"). -/
def Message.headerLength (m : Message) : Nat := 20 + m.body.length

/-- Modelled from the spec, §4.2/§6: `encode(message)` — the 20-byte header
(version byte, 3-byte length, flags byte, 3-byte command code, 4-byte
application id, hop-by-hop id, end-to-end id) followed by the concatenated
AVP encodings in order. -/
def encodeMessage (m : Message) : List Nat :=
  [m.version % 256] ++ u24be m.headerLength ++ [m.flags % 256] ++
    u24be m.command_code ++ u32be m.application_id ++ u32be m.hop_by_hop_id ++
    u32be m.end_to_end_id ++ m.body

/-- A decoded AVP before dictionary interpretation: code, optional vendor
id and raw value bytes, as the decoder reads them back off the wire. -/
structure RawAvp where
  code : Nat
  vendor_id : Option Nat
  value : List Nat
deriving DecidableEq

/-- Big-endian integer value of a byte list. -/
def beNat (bs : List Nat) : Nat := bs.foldl (fun acc b => acc * 256 + b) 0

/-- Modelled from the spec, §4.1 decode: read AVPs sequentially — 4-byte
code, flags byte (bit0 = vendor-specific), 3-byte declared length validated
against the remaining buffer (`none` = `MalformedAvp`), the vendor id when
flagged, the value of declared length minus header length, then skip the
padding.  The fuel argument only bounds the recursion and is passed the
byte count; every AVP consumes at least 8 bytes, so it never runs out
first. -/
def decodeAvps : Nat → List Nat → Option (List RawAvp)
  | _, [] => some []
  | 0, _ :: _ => none
  | fuel + 1, b0 :: bs =>
    let bytes := b0 :: bs
    if bytes.length < 8 then none
    else
      let code := beNat (bytes.take 4)
      let flags := bytes.getD 4 0
      let declaredLen := beNat ((bytes.drop 5).take 3)
      let hdrLen := if flags % 2 == 1 then 12 else 8
      if declaredLen < hdrLen then none
      else if bytes.length < declaredLen then none
      else
        let vid := if flags % 2 == 1 then some (beNat ((bytes.drop 8).take 4)) else none
        let value := (bytes.drop hdrLen).take (declaredLen - hdrLen)
        match decodeAvps fuel (bytes.drop (declaredLen + pad4 declaredLen)) with
        | some rest => some (⟨code, vid, value⟩ :: rest)
        | none => none

/-- Modelled from the spec, §4.2 decode: parse past the 20-byte header and
decode the AVP sequence from the body. -/
def decodeMessage (bytes : List Nat) : Option (List RawAvp) :=
  if bytes.length < 20 then none
  else decodeAvps (bytes.drop 20).length (bytes.drop 20)

namespace SendCer

/-! ## `my_task/send_cer.py` -/

/-- `ORIGIN_HOST = b"mscp05.gpgw-01"` (ASCII bytes). -/
def ORIGIN_HOST : List Nat := [109, 115, 99, 112, 48, 53, 46, 103, 112, 103, 119, 45, 48, 49]

/-- `ORIGIN_REALM = b"worldov.com"` (ASCII bytes). -/
def ORIGIN_REALM : List Nat := [119, 111, 114, 108, 100, 111, 118, 46, 99, 111, 109]

/-- `HOST_IP_STRING = "198.18.153.109"`, wire-encoded per the spec as the
2-byte address-family tag 1 followed by the 4 address bytes. -/
def HOST_IP_BYTES : List Nat := [0, 1, 198, 18, 153, 109]

/-- `VENDOR_ID = 6527`. -/
def VENDOR_ID : Nat := 6527

/-- `PRODUCT_NAME = "SR-OS-MG"` (ASCII bytes). -/
def PRODUCT_NAME : List Nat := [83, 82, 45, 79, 83, 45, 77, 71]

/-- `ORIGIN_STATE_ID = 1753697272`. -/
def ORIGIN_STATE_ID : Nat := 1753697272

/-- `SUPPORTED_VENDOR_IDS = [10415, 5535]`. -/
def SUPPORTED_VENDOR_IDS : List Nat := [10415, 5535]

/-- `AUTH_APP_ID = 4`. -/
def AUTH_APP_ID : Nat := 4

/-- `build_cer()`: the CapabilitiesExchangeRequest (command code 257,
request flag set) with the AVPs the script assigns, in assignment order,
followed by the two appended Supported-Vendor-Id(265) AVPs.
`inband_security_id` is never assigned by this script, so no
Inband-Security-Id(299) AVP is present.  AVP codes: Origin-Host 264,
Origin-Realm 296, Host-IP-Address 257, Vendor-Id 266, Product-Name 269,
Origin-State-Id 278, Auth-Application-Id 258.  The hop-by-hop and
end-to-end identifiers the library randomizes are fixed to 0 — no claim
depends on them. -/
def build_cer : Message :=
  { version := 1
    flags := 128
    command_code := 257
    application_id := 0
    hop_by_hop_id := 0
    end_to_end_id := 0
    avps :=
      [Avp.raw 264 none ORIGIN_HOST,
       Avp.raw 296 none ORIGIN_REALM,
       Avp.raw 257 none HOST_IP_BYTES,
       Avp.num 266 none VENDOR_ID,
       Avp.raw 269 none PRODUCT_NAME,
       Avp.num 278 none ORIGIN_STATE_ID,
       Avp.num 258 none AUTH_APP_ID] ++
      SUPPORTED_VENDOR_IDS.map (fun vid => Avp.num 265 none vid) }

end SendCer

/-- C4: for every constructed message, the byte length of its encoding
equals the header length field (`len(message.as_bytes()) ==
message.header.length`); and whenever that value fits the 24-bit wire
field, the length the framer reads back from the encoded bytes is that same
number — the sole authority for framing. -/
theorem encode_length_invariant (m : Message) :
    (encodeMessage m).length = m.headerLength ∧
    (m.headerLength < 16777216 →
      lengthField (encodeMessage m) = m.headerLength) := by
  constructor
  · simp [encodeMessage, u24be, u32be, Message.headerLength]
    omega
  · intro h
    simp only [encodeMessage, u24be, u32be, lengthField, List.cons_append,
      List.nil_append, List.getD_cons_succ, List.getD_cons_zero]
    omega

/-- Witness for C4 at a concrete CCR-like message carrying one numeric
AVP. -/
theorem encode_length_invariant_witness :
    Message.headerLength ⟨1, 128, 272, 4, 0, 0, [Avp.num 265 none 10415]⟩ < 16777216 ∧
    (encodeMessage ⟨1, 128, 272, 4, 0, 0, [Avp.num 265 none 10415]⟩).length =
      Message.headerLength ⟨1, 128, 272, 4, 0, 0, [Avp.num 265 none 10415]⟩ ∧
    lengthField (encodeMessage ⟨1, 128, 272, 4, 0, 0, [Avp.num 265 none 10415]⟩) =
      Message.headerLength ⟨1, 128, 272, 4, 0, 0, [Avp.num 265 none 10415]⟩ :=
  ⟨by decide, (encode_length_invariant _).1, (encode_length_invariant _).2 (by decide)⟩

set_option maxRecDepth 8000 in
/-- C7 counterexample: decoding the encoded CER of `send_cer.py` succeeds
but yields no Inband-Security-Id(299) AVP at all — the script never assigns
`inband_security_id`, so the decoded message reports the attribute as
absent, not as NO_INBAND_SECURITY. -/
theorem build_cer_no_inband_security :
    (decodeMessage (encodeMessage SendCer.build_cer)).isSome = true ∧
    (decodeMessage (encodeMessage SendCer.build_cer)).map
        (fun avps => avps.filter (fun a => a.code == 299)) = some [] := by
  decide

set_option maxRecDepth 8000 in
/-- C7 (amended): the CER built with vendor_id 6527, the two appended
Supported-Vendor-Id AVPs 10415 and 5535 and auth_application_id 4, encoded
and decoded back, contains both Supported-Vendor-Id AVPs in their original
insertion order (values 10415 then 5535), while carrying no
Inband-Security-Id AVP (the script leaves `inband_security_id` unset). -/
theorem build_cer_roundtrip_vendor_ids :
    (decodeMessage (encodeMessage SendCer.build_cer)).map
        (fun avps => (avps.filter (fun a => a.code == 265)).map (fun a => beNat a.value)) =
      some [10415, 5535] ∧
    (decodeMessage (encodeMessage SendCer.build_cer)).map
        (fun avps => avps.countP (fun a => a.code == 299)) = some 0 := by
  decide

end DiameterRepo
